import Mathlib

set_option maxHeartbeats 1000000
set_option maxRecDepth 100000

/-!
Shallow embedding of the `empd` utility (src/src/main.rs): a single-path
classifier with an exit-code contract and a confirmation-gated deletion
protocol.  Filesystem probes (`fs::symlink_metadata`, `fs::canonicalize`,
`read_dir`, `read_link`, `remove_dir`, `remove_file`) are modelled by an
explicit `Fs` record giving each probe's result for the one target path;
the interactive `read_line` is modelled by a `StdinModel` record.  All
side effects (stdout lines, stderr lines, the stdin read, and successful
removals) are collected in an ordered trace of `Effect`s.  ANSI styling
(`.bold()`, colors) is elided: messages are the unstyled text.
-/

/-- Kind of a filesystem object as distinguished by the program:
`is_dir` / `is_file` / `is_symlink`, with `other` for everything else
(devices, sockets, ...). -/
inductive FileKind
  | directory
  | file
  | symlink
  | other
deriving DecidableEq, Repr

/-- Model of an OS path value (Rust `Path` / `PathBuf`): textual content
plus whether the underlying bytes are valid UTF-8.  `to_str` succeeds
exactly when the bytes are valid UTF-8. -/
structure OsPath where
  bytes : String
  isUtf8 : Bool
deriving DecidableEq, Repr

/-- Rust `Path::to_str`: `Some` of the text iff the path is valid UTF-8. -/
def OsPath.toStr (p : OsPath) : Option String :=
  if p.isUtf8 then some p.bytes else none

/-- Rust `Path::new` applied to a `&String`: a Rust `String` is always
valid UTF-8, so the resulting path is UTF-8 by construction. -/
def Path.new (s : String) : OsPath :=
  ⟨s, true⟩

/-- Result of `fs::symlink_metadata` when it fails, by `ErrorKind`. -/
inductive ProbeError
  | notFound
  | permissionDenied
  | otherError
deriving DecidableEq, Repr

/-- Successful `fs::symlink_metadata` result: the object's own kind (the
probe does not dereference a terminal symlink) and its byte length. -/
structure Metadata where
  kind : FileKind
  len : Nat
deriving DecidableEq, Repr

/-- Result of `fs::canonicalize` on the target path. -/
inductive CanonRes
  | resolved (p : OsPath)
  | notFound
  | ioError
deriving DecidableEq, Repr

/-- One item yielded by `read_dir`: the entry handle may error, its
`file_type()` call may error, or it yields a kind. -/
inductive DirEntryRes
  | accessError
  | fileTypeError
  | entry (k : FileKind)
deriving DecidableEq, Repr

deriving instance DecidableEq for Except

/-- Filesystem state relevant to one invocation: the result each probe
would return for the target path. -/
structure Fs where
  symlinkMetadata : Except ProbeError Metadata
  canonicalizeRes : CanonRes
  readDirRes : Except Unit (List DirEntryRes)
  readLinkRes : Except Unit OsPath
  removeDirOk : Bool
  removeFileOk : Bool
deriving DecidableEq, Repr

/-- Model of standard input: the one line `read_line` would produce
(including its trailing newline), or an I/O error. -/
structure StdinModel where
  line : Except Unit String
deriving DecidableEq, Repr

/-- Observable side effects of a run, in order.  `removeDir` / `removeFile`
are recorded only for a removal that succeeds. -/
inductive Effect
  | stdout (s : String)
  | stderr (s : String)
  | stdinRead
  | removeDir
  | removeFile
deriving DecidableEq, Repr

/-- Effects that neither touch stdin nor mutate the filesystem. -/
def Effect.isPassive : Effect → Bool
  | .stdout _ => true
  | .stderr _ => true
  | _ => false

/-- Outcome of `start`: `success` is `Ok(Ok(()))`, `exitCode c` is
`Ok(Err(c))`, and `fatal msg` is the `Err(anyhow::Error)` case. -/
inductive Outcome
  | success
  | exitCode (c : Int)
  | fatal (msg : String)
deriving DecidableEq, Repr

/-- Closed classification result (spec section 3). -/
inductive Category
  | emptyDirectory
  | nonEmptyDirectory (directories files symlinks : Nat)
  | emptyFile
  | nonEmptyFile (size : Nat)
  | danglingSymlink (target : String)
  | liveSymlink (target resolved : String)
deriving DecidableEq, Repr

/-- Result of one run: the outcome, the classification reached (if any),
and the ordered effect trace. -/
structure RunResult where
  outcome : Outcome
  category : Option Category
  effects : List Effect
deriving DecidableEq, Repr

/-- Parsed command-line configuration (struct `EmpdArgs`); `path` is a
Rust `String`, hence valid UTF-8. -/
structure EmpdArgs where
  delete_if_empty : Bool
  path : String
deriving DecidableEq, Repr

/-- Modulus of the `u32` counters in the directory census. -/
def u32Mod : Nat := 4294967296

/-- Message emitted when the target path does not exist (stderr). -/
def msgNotFound (p : String) : String :=
  "Path \"" ++ p ++ "\" does not exist"

/-- Message emitted when the metadata probe is denied (stderr). -/
def msgPermissionDenied (p : String) : String :=
  "Permission to path \"" ++ p ++ "\" was denied"

/-- Canonicalizer's informational message on success (stderr). -/
def msgCanonicalized (p s : String) : String :=
  "Canonicalized input path \"" ++ p ++ "\" to \"" ++ s ++ "\""

/-- Canonicalizer's informational message when the path does not resolve
(stderr). -/
def msgCanonicalizeNotFound (p : String) : String :=
  "Could not canonicalize input path \"" ++ p ++
    "\" because it or the file it resolves to does not exist"

/-- Rendering of a census count (`bold_if_greater_than_zero`); styling is
elided so both arms render the same text. -/
def bold_if_greater_than_zero (input : Nat) : String :=
  if input > 0 then toString input else toString input

/-- Check-mark glyph used in success status lines. -/
def CHECK_MARK : String := "✔️"

/-- Cross glyph used in failure status lines. -/
def X : String := "🗙"

/-- Status line for a non-empty directory (stdout). -/
def msgNonEmptyDir (s : String) (directories files symlinks total : Nat) : String :=
  " " ++ X ++ "  Path \"" ++ s ++ "\" is a non-empty directory (directories: " ++
    bold_if_greater_than_zero directories ++ ", files: " ++
    bold_if_greater_than_zero files ++ ", symlinks: " ++
    bold_if_greater_than_zero symlinks ++ ", total items: " ++
    bold_if_greater_than_zero total ++ ")"

/-- Status line for an empty directory (stdout). -/
def msgEmptyDir (s : String) : String :=
  " " ++ CHECK_MARK ++ "  Path \"" ++ s ++ "\" is an empty directory"

/-- Deletion prompt for an empty directory (stderr). -/
def msgPromptDir (s : String) : String :=
  "Are you sure you want to delete empty directory \"" ++ s ++ "\"? (\"y\")\n" ++
    "(Note that no file locking or revalidation is performed, and the directory may be non-empty by the time you respond to this prompt!)"

/-- Confirmation line after deleting an empty directory (stdout). -/
def msgDeletedDir (s : String) : String :=
  "Deleted empty directory \"" ++ s ++ "\""

/-- Decline line for a directory deletion (stdout). -/
def msgNotDeletingDir : String :=
  "Input was not \"y\", not deleting empty directory"

/-- Status line for a non-empty file (stdout). -/
def msgNonEmptyFile (s : String) (len : Nat) : String :=
  " " ++ X ++ "  Path \"" ++ s ++ "\" is a non-empty file (bytes: " ++
    toString len ++ ")"

/-- Status line for an empty file (stdout). -/
def msgEmptyFile (s : String) : String :=
  " " ++ CHECK_MARK ++ "  Path \"" ++ s ++ "\" is an empty file"

/-- Deletion prompt for an empty file (stderr). -/
def msgPromptFile (s : String) : String :=
  "Are you sure you want to delete empty file \"" ++ s ++ "\"? (\"y\")\n" ++
    "(Note that no file locking or revalidation is performed, and the file may be non-empty by the time you respond to this prompt!)"

/-- Confirmation line after deleting an empty file (stdout). -/
def msgDeletedFile (s : String) : String :=
  "Deleted empty file \"" ++ s ++ "\""

/-- Decline line for a file deletion (stdout). -/
def msgNotDeletingFile : String :=
  "Input was not \"y\", not deleting empty file"

/-- Status line for a live symlink (stdout). -/
def msgLiveSymlink (p t st : String) : String :=
  " " ++ X ++ "  Path \"" ++ p ++ "\" (non-canonicalized) is a symbolic link to \"" ++
    t ++ "\" (resolves to \"" ++ st ++ "\")"

/-- Status line for a dangling symlink (stdout). -/
def msgDanglingSymlink (p t : String) : String :=
  " " ++ CHECK_MARK ++ "  Path \"" ++ p ++
    "\" (non-canonicalized) is a symbolic link to non-existent file \"" ++ t ++
    "\" (non-canonicalized)"

/-- Deletion prompt for a dangling symlink (stderr). -/
def msgPromptSymlink (p t : String) : String :=
  "Are you sure you want to delete symbolic link \"" ++ p ++
    "\" (non-canonicalized) pointing to non-existent file \"" ++ t ++
    "\"? (non-canonicalized) (\"y\")\n" ++
    "(Note that no file locking or revalidation is performed, and the symbolic link destination may exist by the time you respond to this prompt!)"

/-- Confirmation line after deleting a dangling symlink (stdout). -/
def msgDeletedSymlink (p : String) : String :=
  "Deleted symbolic link \"" ++ p ++ "\" (non-canonicalized)"

/-- Decline line for a symlink deletion (stdout). -/
def msgNotDeletingSymlink : String :=
  "Input was not \"y\", not deleting symbolic link"

/-- Fatal-path message for an unsupported object kind. -/
def msgNotSupported (p : String) : String :=
  "Path \"" ++ p ++ "\" is not a directory, file, or symlink"

/-- Final stderr note printed for any non-zero classification exit code. -/
def msgExiting (it : Int) : String :=
  "Exiting with non-zero exit code " ++ toString it

/-- Embedding of `fn canonicalize(path_str, path_path)`: on a resolved
path, require UTF-8 (else fatal) and emit the informational mapping
message; on not-found return `none` with an informational message; any
other failure is fatal.  Returns the `anyhow::Result<Option<String>>`
together with the stderr effects it emits. -/
def canonicalize (path_str : String) (res : CanonRes) :
    Except String (Option String) × List Effect :=
  match res with
  | .resolved pa =>
    match pa.toStr with
    | none => (Except.error "Could not convert path to a UTF-8 string", [])
    | some path_buf_str =>
      (Except.ok (some path_buf_str),
        [Effect.stderr (msgCanonicalized path_str path_buf_str)])
  | .notFound =>
    (Except.ok none, [Effect.stderr (msgCanonicalizeNotFound path_str)])
  | .ioError => (Except.error "canonicalize io error", [])

/-- Embedding of the directory-census loop (main.rs lines 99-122): `u32`
counters with wrap-around, bailing at the first entry that errors or is
not a directory, file, or symlink. -/
def countLoop (directories files symlinks : Nat) :
    List DirEntryRes → Except String (Nat × Nat × Nat)
  | [] => Except.ok (directories, files, symlinks)
  | e :: rest =>
    match e with
    | .accessError => Except.error "Could not access directory entry"
    | .fileTypeError => Except.error "Could not get the directory entry's file type"
    | .entry .directory => countLoop ((directories + 1) % u32Mod) files symlinks rest
    | .entry .file => countLoop directories ((files + 1) % u32Mod) symlinks rest
    | .entry .symlink => countLoop directories files ((symlinks + 1) % u32Mod) rest
    | .entry .other =>
      Except.error "Encountered directory entry that is not a directory, file, or symlink"

/-- Computation of the `exit_code` value in `fn start` (main.rs lines
71-302): probe, dispatch on kind, classify, and optionally run the
confirmation-gated deletion protocol.  Returns the outcome, the
classification reached, and the effect trace. -/
def classifyAct (delete_if_empty : Bool) (path_path_str : String) (fs : Fs)
    (stdin : StdinModel) : Outcome × Option Category × List Effect :=
  match fs.symlinkMetadata with
    | .error .notFound =>
      (.exitCode 11, none, [.stderr (msgNotFound path_path_str)])
    | .error .permissionDenied =>
      (.exitCode 12, none, [.stderr (msgPermissionDenied path_path_str)])
    | .error .otherError => (.fatal "symlink_metadata io error", none, [])
    | .ok me =>
      match me.kind with
      | .directory =>
        let eff0 := (canonicalize path_path_str fs.canonicalizeRes).2
        match (canonicalize path_path_str fs.canonicalizeRes).1 with
        | .error m => (.fatal m, none, eff0)
        | .ok none => (.fatal "Could not canonicalize directory path", none, eff0)
        | .ok (some canonicalize_result) =>
          match fs.readDirRes with
          | .error _ => (.fatal "Could not read directory", none, eff0)
          | .ok entries =>
            match countLoop 0 0 0 entries with
            | .error m => (.fatal m, none, eff0)
            | .ok (directories, files, symlinks) =>
              let total_items := (directories + files + symlinks) % u32Mod
              if total_items > 0 then
                (.exitCode 31, some (.nonEmptyDirectory directories files symlinks),
                  eff0 ++ [.stdout (msgNonEmptyDir canonicalize_result directories
                    files symlinks total_items)])
              else
                let eff1 := eff0 ++ [.stdout (msgEmptyDir canonicalize_result)]
                if delete_if_empty then
                  let eff2 := eff1 ++
                    [.stderr (msgPromptDir canonicalize_result), .stdinRead]
                  match stdin.line with
                  | .error _ => (.fatal "read_line io error", some .emptyDirectory, eff2)
                  | .ok input =>
                    if input = "y\n" then
                      if fs.removeDirOk then
                        (.success, some .emptyDirectory,
                          eff2 ++ [.removeDir, .stdout (msgDeletedDir canonicalize_result)])
                      else (.fatal "remove_dir io error", some .emptyDirectory, eff2)
                    else
                      (.exitCode 32, some .emptyDirectory,
                        eff2 ++ [.stdout msgNotDeletingDir])
                else (.success, some .emptyDirectory, eff1)
      | .file =>
        let eff0 := (canonicalize path_path_str fs.canonicalizeRes).2
        match (canonicalize path_path_str fs.canonicalizeRes).1 with
        | .error m => (.fatal m, none, eff0)
        | .ok none => (.fatal "Could not canonicalize file path", none, eff0)
        | .ok (some canonicalize_result) =>
          if me.len > 0 then
            (.exitCode 21, some (.nonEmptyFile me.len),
              eff0 ++ [.stdout (msgNonEmptyFile canonicalize_result me.len)])
          else
            let eff1 := eff0 ++ [.stdout (msgEmptyFile canonicalize_result)]
            if delete_if_empty then
              let eff2 := eff1 ++
                [.stderr (msgPromptFile canonicalize_result), .stdinRead]
              match stdin.line with
              | .error _ => (.fatal "read_line io error", some .emptyFile, eff2)
              | .ok input =>
                if input = "y\n" then
                  if fs.removeFileOk then
                    (.success, some .emptyFile,
                      eff2 ++ [.removeFile, .stdout (msgDeletedFile canonicalize_result)])
                  else (.fatal "remove_file io error", some .emptyFile, eff2)
                else
                  (.exitCode 22, some .emptyFile, eff2 ++ [.stdout msgNotDeletingFile])
            else (.success, some .emptyFile, eff1)
      | .symlink =>
        match fs.readLinkRes with
        | .error _ => (.fatal "Could not read symbolic link", none, [])
        | .ok link_path_buf =>
          match link_path_buf.toStr with
          | none =>
            (.fatal "Could not convert symbolic link path to a UTF-8 string", none, [])
          | some link_path_buf_str =>
            let eff0 := (canonicalize path_path_str fs.canonicalizeRes).2
            match (canonicalize path_path_str fs.canonicalizeRes).1 with
            | .error m => (.fatal m, none, eff0)
            | .ok (some st) =>
              (.exitCode 41, some (.liveSymlink link_path_buf_str st),
                eff0 ++ [.stdout (msgLiveSymlink path_path_str link_path_buf_str st)])
            | .ok none =>
              let eff1 := eff0 ++
                [.stdout (msgDanglingSymlink path_path_str link_path_buf_str)]
              if delete_if_empty then
                let eff2 := eff1 ++
                  [.stderr (msgPromptSymlink path_path_str link_path_buf_str), .stdinRead]
                match stdin.line with
                | .error _ =>
                  (.fatal "read_line io error",
                    some (.danglingSymlink link_path_buf_str), eff2)
                | .ok input =>
                  if input = "y\n" then
                    if fs.removeFileOk then
                      (.success, some (.danglingSymlink link_path_buf_str),
                        eff2 ++ [.removeFile, .stdout (msgDeletedSymlink path_path_str)])
                    else
                      (.fatal "remove_file io error",
                        some (.danglingSymlink link_path_buf_str), eff2)
                  else
                    (.exitCode 42, some (.danglingSymlink link_path_buf_str),
                      eff2 ++ [.stdout msgNotDeletingSymlink])
              else (.success, some (.danglingSymlink link_path_buf_str), eff1)
      | .other => (.fatal (msgNotSupported path_path_str), none, [])

/-- Core of `fn start` after the target path has been converted to a
string slice: compute the classification outcome, then append the final
"Exiting with non-zero exit code" stderr note (main.rs lines 304-306)
when the outcome is a classification exit code. -/
def startCore (delete_if_empty : Bool) (path_path_str : String) (fs : Fs)
    (stdin : StdinModel) : RunResult :=
  match classifyAct delete_if_empty path_path_str fs stdin with
  | (o, c, eff) =>
    match o with
    | .exitCode it => ⟨o, c, eff ++ [.stderr (msgExiting it)]⟩
    | _ => ⟨o, c, eff⟩

/-- Embedding of `fn start` lines 63-67: convert the target `Path` back to
a string slice (fatal if not UTF-8), then run the core. -/
def startOnPath (delete_if_empty : Bool) (path_path : OsPath) (fs : Fs)
    (stdin : StdinModel) : RunResult :=
  match path_path.toStr with
  | none => ⟨.fatal "Could not convert path to a UTF-8 string", none, []⟩
  | some path_path_str => startCore delete_if_empty path_path_str fs stdin

/-- Embedding of `fn start`: destructure the parsed arguments, build the
`Path`, and run. -/
def start (args : EmpdArgs) (fs : Fs) (stdin : StdinModel) : RunResult :=
  startOnPath args.delete_if_empty (Path.new args.path) fs stdin

/-- Embedding of `fn main`'s mapping from `start`'s result to the process
exit code: `Ok(Ok(()))` exits 0, `Ok(Err(c))` exits `c`, and a fatal
error exits 1. -/
def mainExitCode (r : RunResult) : Int :=
  match r.outcome with
  | .success => 0
  | .exitCode c => c
  | .fatal _ => 1

/-- Semantics of one effect on the filesystem state: a successful removal
of the target makes it absent; output and input effects change nothing. -/
def applyEffect (fs : Fs) (e : Effect) : Fs :=
  match e with
  | .removeDir => { fs with symlinkMetadata := .error .notFound, canonicalizeRes := .notFound }
  | .removeFile => { fs with symlinkMetadata := .error .notFound, canonicalizeRes := .notFound }
  | _ => fs

/-- Filesystem state after a whole effect trace. -/
def applyEffects (fs : Fs) (l : List Effect) : Fs :=
  l.foldl applyEffect fs

/-- Filesystem state of an existing directory whose canonical form is the
UTF-8 string `s` and whose immediate children are `entries`. -/
def dirFs (s : String) (entries : List DirEntryRes) : Fs :=
  ⟨.ok ⟨.directory, 0⟩, .resolved ⟨s, true⟩, .ok entries, .error (), true, true⟩

/-- Filesystem state of an existing regular file of length `len` whose
canonical form is the UTF-8 string `s`. -/
def fileFs (s : String) (len : Nat) : Fs :=
  ⟨.ok ⟨.file, len⟩, .resolved ⟨s, true⟩, .error (), .error (), true, true⟩

/-- Filesystem state of a symbolic link with immediate target `t` (UTF-8)
whose full-chain canonicalization gives `res`. -/
def symlinkFs (t : String) (res : CanonRes) : Fs :=
  ⟨.ok ⟨.symlink, 0⟩, res, .error (), .ok ⟨t, true⟩, true, true⟩


/-- C10: the fatal branch for a non-UTF-8 target path is unreachable:
the target arrives from argument parsing as a valid UTF-8 string, so the
`to_str` conversion always succeeds and `start` always runs the core
(never the "Could not convert path to a UTF-8 string" arm on the input
path). -/
theorem c10_input_utf8_branch_unreachable (args : EmpdArgs) (fs : Fs)
    (stdin : StdinModel) :
    start args fs stdin = startCore args.delete_if_empty args.path fs stdin := by
  rfl

/-- C4: when the non-dereferencing metadata probe fails, "not found" gives
exit code 11 (with no filesystem mutation), "permission denied" gives exit
code 12, and any other probe failure is fatal (process exit 1, no
classification). -/
theorem c4_probe_failure_codes (p : String) (d : Bool) (cres : CanonRes)
    (rd : Except Unit (List DirEntryRes)) (rl : Except Unit OsPath)
    (rdo rfo : Bool) (i : StdinModel) :
    ((start ⟨d, p⟩ ⟨.error .notFound, cres, rd, rl, rdo, rfo⟩ i).outcome
        = .exitCode 11 ∧
      (start ⟨d, p⟩ ⟨.error .notFound, cres, rd, rl, rdo, rfo⟩ i).category = none ∧
      (start ⟨d, p⟩ ⟨.error .notFound, cres, rd, rl, rdo, rfo⟩ i).effects
        = [.stderr (msgNotFound p), .stderr (msgExiting 11)] ∧
      applyEffects ⟨.error .notFound, cres, rd, rl, rdo, rfo⟩
        (start ⟨d, p⟩ ⟨.error .notFound, cres, rd, rl, rdo, rfo⟩ i).effects
        = ⟨.error .notFound, cres, rd, rl, rdo, rfo⟩)
    ∧ ((start ⟨d, p⟩ ⟨.error .permissionDenied, cres, rd, rl, rdo, rfo⟩ i).outcome
        = .exitCode 12 ∧
      (start ⟨d, p⟩ ⟨.error .permissionDenied, cres, rd, rl, rdo, rfo⟩ i).category = none)
    ∧ ((start ⟨d, p⟩ ⟨.error .otherError, cres, rd, rl, rdo, rfo⟩ i).outcome
        = .fatal "symlink_metadata io error" ∧
      mainExitCode (start ⟨d, p⟩ ⟨.error .otherError, cres, rd, rl, rdo, rfo⟩ i) = 1 ∧
      (start ⟨d, p⟩ ⟨.error .otherError, cres, rd, rl, rdo, rfo⟩ i).category = none) := by
  refine ⟨⟨?_, ?_, ?_, ?_⟩, ⟨?_, ?_⟩, ⟨?_, ?_, ?_⟩⟩ <;>
    simp [start, startOnPath, startCore, classifyAct, Path.new, OsPath.toStr,
      mainExitCode, applyEffects, applyEffect]

/-- C2: a symbolic link whose full-chain canonicalization succeeds (to a
UTF-8 form) always gives exit code 41, for both values of the deletion
flag; stdin is never read and no removal is ever performed. -/
theorem c2_live_symlink_always_41 (p t st : String) (d : Bool) (i : StdinModel) :
    (start ⟨d, p⟩ (symlinkFs t (.resolved ⟨st, true⟩)) i).outcome = .exitCode 41 ∧
    (start ⟨d, p⟩ (symlinkFs t (.resolved ⟨st, true⟩)) i).category
      = some (.liveSymlink t st) ∧
    Effect.stdinRead ∉ (start ⟨d, p⟩ (symlinkFs t (.resolved ⟨st, true⟩)) i).effects ∧
    Effect.removeDir ∉ (start ⟨d, p⟩ (symlinkFs t (.resolved ⟨st, true⟩)) i).effects ∧
    Effect.removeFile ∉ (start ⟨d, p⟩ (symlinkFs t (.resolved ⟨st, true⟩)) i).effects ∧
    (start ⟨d, p⟩ (symlinkFs t (.resolved ⟨st, true⟩)) i).effects
      = [.stderr (msgCanonicalized p st), .stdout (msgLiveSymlink p t st),
         .stderr (msgExiting 41)] := by
  refine ⟨?_, ?_, ?_, ?_, ?_, ?_⟩ <;>
    simp [start, startOnPath, startCore, classifyAct, symlinkFs, canonicalize,
      Path.new, OsPath.toStr]

/-- C6: the canonicalize operation returns `none` (without erroring)
exactly when resolution fails with "not found"; on successful resolution
it returns `some` of the resolved form, which must be valid UTF-8 or the
call fails fatally; every other resolution failure is fatal. -/
theorem c6_canonicalize_contract (p s : String) :
    (∀ res : CanonRes, (canonicalize p res).1 = Except.ok none ↔ res = .notFound)
    ∧ (canonicalize p (.resolved ⟨s, true⟩)).1 = Except.ok (some s)
    ∧ (canonicalize p (.resolved ⟨s, false⟩)).1
        = Except.error "Could not convert path to a UTF-8 string"
    ∧ (canonicalize p .ioError).1 = Except.error "canonicalize io error" := by
  refine ⟨?_, ?_, ?_, ?_⟩
  · intro res
    rcases res with ⟨b, u⟩ | _ | _
    · cases u <;> simp [canonicalize, OsPath.toStr]
    · simp [canonicalize]
    · simp [canonicalize]
  · simp [canonicalize, OsPath.toStr]
  · simp [canonicalize, OsPath.toStr]
  · simp [canonicalize]

/-- C5: an existing regular file of positive byte length gives exit code
21 (for either value of the deletion flag); an empty (zero-length) file
with the deletion flag off gives success (exit code 0) and the file is
left unmodified. -/
theorem c5_regular_file_classification (p s : String) (len : Nat) (i : StdinModel) :
    (∀ d : Bool, 0 < len →
      (start ⟨d, p⟩ (fileFs s len) i).outcome = .exitCode 21 ∧
      (start ⟨d, p⟩ (fileFs s len) i).category = some (.nonEmptyFile len))
    ∧ (len = 0 →
      (start ⟨false, p⟩ (fileFs s len) i).outcome = .success ∧
      (start ⟨false, p⟩ (fileFs s len) i).category = some .emptyFile ∧
      mainExitCode (start ⟨false, p⟩ (fileFs s len) i) = 0 ∧
      applyEffects (fileFs s len) (start ⟨false, p⟩ (fileFs s len) i).effects
        = fileFs s len) := by
  constructor
  · intro d hlen
    constructor <;>
      simp [start, startOnPath, startCore, classifyAct, fileFs, canonicalize,
        Path.new, OsPath.toStr, hlen, Nat.pos_iff_ne_zero.mp hlen]
  · intro hlen
    subst hlen
    refine ⟨?_, ?_, ?_, ?_⟩ <;>
      simp [start, startOnPath, startCore, classifyAct, fileFs, canonicalize,
        Path.new, OsPath.toStr, mainExitCode, applyEffects, applyEffect]

/-- Witness for C5 at concrete inputs: a one-byte file and a zero-byte
file. -/
theorem c5_regular_file_classification_witness :
    (start ⟨false, "p"⟩ (fileFs "/a" 1) ⟨.ok ""⟩).outcome = .exitCode 21 ∧
    (start ⟨false, "p"⟩ (fileFs "/a" 0) ⟨.ok ""⟩).outcome = .success :=
  ⟨((c5_regular_file_classification "p" "/a" 1 ⟨.ok ""⟩).1 false (by decide)).1,
    ((c5_regular_file_classification "p" "/a" 0 ⟨.ok ""⟩).2 rfl).1⟩

/-- C1: for a path classified EmptyDirectory, EmptyFile, or
DanglingSymlink with the deletion flag set, an input line of exactly
"y" then newline performs the one kind-appropriate non-recursive removal
and succeeds (exit 0); any other input performs no removal and yields the
category-specific declined code (32 directory, 22 file, 42 symlink). -/
theorem c1_confirmation_gated_deletion (p s t input : String) :
    if input = "y\n" then
      ((start ⟨true, p⟩ (dirFs s []) ⟨.ok input⟩).outcome = .success ∧
        mainExitCode (start ⟨true, p⟩ (dirFs s []) ⟨.ok input⟩) = 0 ∧
        Effect.removeDir ∈ (start ⟨true, p⟩ (dirFs s []) ⟨.ok input⟩).effects ∧
        Effect.removeFile ∉ (start ⟨true, p⟩ (dirFs s []) ⟨.ok input⟩).effects) ∧
      ((start ⟨true, p⟩ (fileFs s 0) ⟨.ok input⟩).outcome = .success ∧
        mainExitCode (start ⟨true, p⟩ (fileFs s 0) ⟨.ok input⟩) = 0 ∧
        Effect.removeFile ∈ (start ⟨true, p⟩ (fileFs s 0) ⟨.ok input⟩).effects ∧
        Effect.removeDir ∉ (start ⟨true, p⟩ (fileFs s 0) ⟨.ok input⟩).effects) ∧
      ((start ⟨true, p⟩ (symlinkFs t .notFound) ⟨.ok input⟩).outcome = .success ∧
        mainExitCode (start ⟨true, p⟩ (symlinkFs t .notFound) ⟨.ok input⟩) = 0 ∧
        Effect.removeFile ∈ (start ⟨true, p⟩ (symlinkFs t .notFound) ⟨.ok input⟩).effects ∧
        Effect.removeDir ∉ (start ⟨true, p⟩ (symlinkFs t .notFound) ⟨.ok input⟩).effects)
    else
      ((start ⟨true, p⟩ (dirFs s []) ⟨.ok input⟩).outcome = .exitCode 32 ∧
        Effect.removeDir ∉ (start ⟨true, p⟩ (dirFs s []) ⟨.ok input⟩).effects ∧
        Effect.removeFile ∉ (start ⟨true, p⟩ (dirFs s []) ⟨.ok input⟩).effects) ∧
      ((start ⟨true, p⟩ (fileFs s 0) ⟨.ok input⟩).outcome = .exitCode 22 ∧
        Effect.removeDir ∉ (start ⟨true, p⟩ (fileFs s 0) ⟨.ok input⟩).effects ∧
        Effect.removeFile ∉ (start ⟨true, p⟩ (fileFs s 0) ⟨.ok input⟩).effects) ∧
      ((start ⟨true, p⟩ (symlinkFs t .notFound) ⟨.ok input⟩).outcome = .exitCode 42 ∧
        Effect.removeDir ∉ (start ⟨true, p⟩ (symlinkFs t .notFound) ⟨.ok input⟩).effects ∧
        Effect.removeFile ∉ (start ⟨true, p⟩ (symlinkFs t .notFound) ⟨.ok input⟩).effects) := by
  by_cases h : input = "y\n" <;>
    simp [h, start, startOnPath, startCore, classifyAct, dirFs, fileFs, symlinkFs,
      canonicalize, Path.new, OsPath.toStr, mainExitCode, countLoop, u32Mod]

/-- C7: for a directory or a regular file, a canonicalization result of
"not found" is fatal (process exit 1, no classification); for a symbolic
link, the same result is not an error and instead yields the
DanglingSymlink classification (success when the deletion flag is off). -/
theorem c7_canonicalize_none_asymmetry (p t : String) (len : Nat)
    (entries : List DirEntryRes) (d : Bool) (i : StdinModel) :
    ((start ⟨d, p⟩ ⟨.ok ⟨.directory, 0⟩, .notFound, .ok entries, .error (), true, true⟩ i).outcome
        = .fatal "Could not canonicalize directory path" ∧
      mainExitCode (start ⟨d, p⟩ ⟨.ok ⟨.directory, 0⟩, .notFound, .ok entries, .error (), true, true⟩ i) = 1 ∧
      (start ⟨d, p⟩ ⟨.ok ⟨.directory, 0⟩, .notFound, .ok entries, .error (), true, true⟩ i).category = none)
    ∧ ((start ⟨d, p⟩ ⟨.ok ⟨.file, len⟩, .notFound, .error (), .error (), true, true⟩ i).outcome
        = .fatal "Could not canonicalize file path" ∧
      mainExitCode (start ⟨d, p⟩ ⟨.ok ⟨.file, len⟩, .notFound, .error (), .error (), true, true⟩ i) = 1 ∧
      (start ⟨d, p⟩ ⟨.ok ⟨.file, len⟩, .notFound, .error (), .error (), true, true⟩ i).category = none)
    ∧ ((start ⟨false, p⟩ (symlinkFs t .notFound) i).category
        = some (.danglingSymlink t) ∧
      (start ⟨false, p⟩ (symlinkFs t .notFound) i).outcome = .success) := by
  refine ⟨⟨?_, ?_, ?_⟩, ⟨?_, ?_, ?_⟩, ⟨?_, ?_⟩⟩ <;>
    simp [start, startOnPath, startCore, classifyAct, symlinkFs, canonicalize,
      Path.new, OsPath.toStr, mainExitCode]

/-- Census loop invariant: over entries that are all directories, files,
or symlinks, and with counters that cannot wrap, the loop succeeds and
the final counters sum to the starting sum plus the number of entries. -/
theorem countLoop_sum (l : List DirEntryRes) : ∀ d f s : Nat,
    (∀ e ∈ l, ∃ k, e = DirEntryRes.entry k ∧ k ≠ FileKind.other) →
    d + f + s + l.length < u32Mod →
    ∃ d' f' s', countLoop d f s l = .ok (d', f', s') ∧
      d' + f' + s' = d + f + s + l.length := by
  induction l with
  | nil => intro d f s _ _; exact ⟨d, f, s, rfl, by simp⟩
  | cons e rest ih =>
    intro d f s hall hb
    obtain ⟨k, hek, hko⟩ := hall e (List.mem_cons_self e rest)
    subst hek
    have hrest : ∀ e' ∈ rest, ∃ k, e' = DirEntryRes.entry k ∧ k ≠ FileKind.other :=
      fun e' he' => hall e' (List.mem_cons_of_mem _ he')
    have hlen : (DirEntryRes.entry k :: rest).length = rest.length + 1 := by simp
    cases k with
    | directory =>
      have h1 : d + 1 < u32Mod := by simp at hb; omega
      obtain ⟨d', f', s', heq, hsum⟩ :=
        ih (d + 1) f s hrest (by simp at hb ⊢; omega)
      exact ⟨d', f', s', by simpa [countLoop, Nat.mod_eq_of_lt h1] using heq,
        by simp; omega⟩
    | file =>
      have h1 : f + 1 < u32Mod := by simp at hb; omega
      obtain ⟨d', f', s', heq, hsum⟩ :=
        ih d (f + 1) s hrest (by simp at hb ⊢; omega)
      exact ⟨d', f', s', by simpa [countLoop, Nat.mod_eq_of_lt h1] using heq,
        by simp; omega⟩
    | symlink =>
      have h1 : s + 1 < u32Mod := by simp at hb; omega
      obtain ⟨d', f', s', heq, hsum⟩ :=
        ih d f (s + 1) hrest (by simp at hb ⊢; omega)
      exact ⟨d', f', s', by simpa [countLoop, Nat.mod_eq_of_lt h1] using heq,
        by simp; omega⟩
    | other => exact absurd rfl hko

/-- Census loop failure: if every entry resolves to a kind but some kind
is unsupported, the loop bails with the unsupported-entry error. -/
theorem countLoop_other_error (l : List DirEntryRes) : ∀ d f s : Nat,
    (∀ e ∈ l, ∃ k, e = DirEntryRes.entry k) →
    DirEntryRes.entry FileKind.other ∈ l →
    countLoop d f s l =
      .error "Encountered directory entry that is not a directory, file, or symlink" := by
  induction l with
  | nil => intro d f s _ hmem; simp at hmem
  | cons e rest ih =>
    intro d f s hall hmem
    obtain ⟨k, hek⟩ := hall e (List.mem_cons_self e rest)
    subst hek
    have hrest : ∀ e' ∈ rest, ∃ k, e' = DirEntryRes.entry k :=
      fun e' he' => hall e' (List.mem_cons_of_mem _ he')
    cases k with
    | other => simp [countLoop]
    | directory =>
      have : DirEntryRes.entry FileKind.other ∈ rest := by
        rcases List.mem_cons.mp hmem with h | h
        · exact absurd h (by simp)
        · exact h
      simpa [countLoop] using ih _ _ _ hrest this
    | file =>
      have : DirEntryRes.entry FileKind.other ∈ rest := by
        rcases List.mem_cons.mp hmem with h | h
        · exact absurd h (by simp)
        · exact h
      simpa [countLoop] using ih _ _ _ hrest this
    | symlink =>
      have : DirEntryRes.entry FileKind.other ∈ rest := by
        rcases List.mem_cons.mp hmem with h | h
        · exact absurd h (by simp)
        · exact h
      simpa [countLoop] using ih _ _ _ hrest this

/-- C3: an existing directory with at least one immediate child, all of
whose children are directories, files, or symlinks, gives exit code 31
with census counts summing exactly to the entry count; a child of any
other kind makes the invocation fatal (process exit 1, no
classification); and emptiness is non-recursive (a directory whose only
child is a subdirectory is non-empty). -/
theorem c3_nonempty_directory_census (p s : String) (i : StdinModel)
    (entries : List DirEntryRes)
    (hne : entries ≠ [])
    (hkinds : ∀ e ∈ entries, ∃ k, e = DirEntryRes.entry k ∧ k ≠ FileKind.other)
    (hlen : entries.length < u32Mod) :
    ((start ⟨false, p⟩ (dirFs s entries) i).outcome = .exitCode 31 ∧
      ∃ d f sy, (start ⟨false, p⟩ (dirFs s entries) i).category
          = some (.nonEmptyDirectory d f sy) ∧ d + f + sy = entries.length)
    ∧ (∀ entries2 : List DirEntryRes,
        (∀ e ∈ entries2, ∃ k, e = DirEntryRes.entry k) →
        DirEntryRes.entry FileKind.other ∈ entries2 →
        mainExitCode (start ⟨false, p⟩ (dirFs s entries2) i) = 1 ∧
        (start ⟨false, p⟩ (dirFs s entries2) i).category = none)
    ∧ (start ⟨false, p⟩ (dirFs s [DirEntryRes.entry FileKind.directory]) i).outcome
        = .exitCode 31 := by
  refine ⟨?_, ?_, ?_⟩
  · obtain ⟨d, f, sy, hcl, hsum⟩ := countLoop_sum entries 0 0 0 hkinds (by simpa using hlen)
    have hsum' : d + f + sy = entries.length := by simpa using hsum
    have htot : (d + f + sy) % u32Mod = entries.length := by
      rw [hsum']; exact Nat.mod_eq_of_lt hlen
    have hpos : 0 < entries.length := List.length_pos.mpr hne
    constructor
    · simp [start, startOnPath, startCore, classifyAct, dirFs, canonicalize,
        Path.new, OsPath.toStr, hcl, htot, hpos]
    · exact ⟨d, f, sy, by
        simp [start, startOnPath, startCore, classifyAct, dirFs, canonicalize,
          Path.new, OsPath.toStr, hcl, htot, hpos], hsum'⟩
  · intro entries2 h1 h2
    have hcl := countLoop_other_error entries2 0 0 0 h1 h2
    constructor <;>
      simp [start, startOnPath, startCore, classifyAct, dirFs, canonicalize,
        Path.new, OsPath.toStr, hcl, mainExitCode]
  · simp [start, startOnPath, startCore, classifyAct, dirFs, canonicalize,
      Path.new, OsPath.toStr, countLoop, u32Mod]

/-- Witness for C3: a directory with exactly one regular-file child is
classified non-empty with exit code 31. -/
theorem c3_nonempty_directory_census_witness :
    (start ⟨false, "p"⟩ (dirFs "/a" [DirEntryRes.entry FileKind.file]) ⟨.ok ""⟩).outcome
      = .exitCode 31 ∧
    mainExitCode (start ⟨false, "p"⟩ (dirFs "/a" [DirEntryRes.entry FileKind.other])
      ⟨.ok ""⟩) = 1 :=
  ⟨((c3_nonempty_directory_census "p" "/a" ⟨.ok ""⟩ [DirEntryRes.entry FileKind.file]
      (by simp)
      (by intro e he; simp at he; subst he; exact ⟨FileKind.file, rfl, by simp⟩)
      (by norm_num [u32Mod])).1).1,
    ((c3_nonempty_directory_census "p" "/a" ⟨.ok ""⟩ [DirEntryRes.entry FileKind.file]
      (by simp)
      (by intro e he; simp at he; subst he; exact ⟨FileKind.file, rfl, by simp⟩)
      (by norm_num [u32Mod])).2.1 [DirEntryRes.entry FileKind.other]
      (by intro e he; simp at he; subst he; exact ⟨FileKind.other, rfl⟩)
      (by simp)).1⟩

/-- The canonicalizer's side effects are only stderr messages. -/
theorem canonicalize_effects_passive (p : String) (res : CanonRes) :
    ∀ e ∈ (canonicalize p res).2, e.isPassive = true := by
  intro e he
  rcases res with ⟨b, u⟩ | _ | _
  · cases u <;> simp_all [canonicalize, OsPath.toStr, Effect.isPassive]
  · simp_all [canonicalize, Effect.isPassive]
  · simp_all [canonicalize]

/-- Passive effects leave the filesystem state unchanged. -/
theorem applyEffect_passive (fs : Fs) (e : Effect) (h : e.isPassive = true) :
    applyEffect fs e = fs := by
  cases e <;> simp_all [applyEffect, Effect.isPassive]

/-- A trace of passive effects leaves the filesystem state unchanged. -/
theorem foldl_applyEffect_passive (l : List Effect) : ∀ fs : Fs,
    (∀ e ∈ l, e.isPassive = true) → List.foldl applyEffect fs l = fs := by
  induction l with
  | nil => intro fs _; rfl
  | cons e rest ih =>
    intro fs hall
    rw [List.foldl_cons, applyEffect_passive fs e (hall e (List.mem_cons_self e rest))]
    exact ih fs fun e' he' => hall e' (List.mem_cons_of_mem _ he')

/-- With the deletion flag off, the classification pass emits only
passive effects: no stdin read and no removal. -/
theorem classifyAct_false_passive (p : String) (fs : Fs) (i : StdinModel) :
    ∀ e ∈ (classifyAct false p fs i).2.2, e.isPassive = true := by
  intro e he
  simp only [classifyAct] at he
  repeat' split at he
  all_goals
    first
    | exact canonicalize_effects_passive _ _ _ he
    | (rcases List.mem_append.mp he with h9 | h9
       · exact canonicalize_effects_passive _ _ _ h9
       · simp_all [Effect.isPassive])
    | simp_all [Effect.isPassive]

/-- With the deletion flag off, a whole run emits only passive effects
(the final exit-code note is a stderr line). -/
theorem startCore_false_passive (p : String) (fs : Fs) (i : StdinModel) :
    ∀ e ∈ (startCore false p fs i).effects, e.isPassive = true := by
  intro e he
  have hc := classifyAct_false_passive p fs i
  simp only [startCore] at he
  split at he <;> dsimp only at he
  · rcases List.mem_append.mp he with h9 | h9
    · exact hc e h9
    · simp_all [Effect.isPassive]
  · exact hc e he

/-- C9: with the deletion flag off, a run leaves the filesystem state
unchanged, so running classification twice in a row on an unchanged path
yields the same category, the same outcome, and the same exit code. -/
theorem c9_classification_idempotent (p : String) (fs : Fs) (i : StdinModel) :
    (start ⟨false, p⟩ (applyEffects fs (start ⟨false, p⟩ fs i).effects) i).category
      = (start ⟨false, p⟩ fs i).category ∧
    (start ⟨false, p⟩ (applyEffects fs (start ⟨false, p⟩ fs i).effects) i).outcome
      = (start ⟨false, p⟩ fs i).outcome ∧
    mainExitCode (start ⟨false, p⟩ (applyEffects fs (start ⟨false, p⟩ fs i).effects) i)
      = mainExitCode (start ⟨false, p⟩ fs i) := by
  have hfs : applyEffects fs (start ⟨false, p⟩ fs i).effects = fs := by
    have h0 : (start ⟨false, p⟩ fs i).effects = (startCore false p fs i).effects := rfl
    rw [h0, applyEffects]
    exact foldl_applyEffect_passive _ fs (startCore_false_passive p fs i)
  rw [hfs]
  exact ⟨rfl, rfl, rfl⟩

/-- C8, counterexample: for a non-existent path the "does not exist"
report is written to standard error (and nothing at all is written to
standard output), contradicting the claim that the not-found report goes
to standard output. -/
theorem c8_not_found_report_on_stderr_counterexample :
    (start ⟨false, "p"⟩ ⟨.error .notFound, .notFound, .error (), .error (), true, true⟩
      ⟨.ok ""⟩).effects
      = [Effect.stderr (msgNotFound "p"), Effect.stderr (msgExiting 11)] ∧
    Effect.stdout (msgNotFound "p") ∉
      (start ⟨false, "p"⟩ ⟨.error .notFound, .notFound, .error (), .error (), true, true⟩
        ⟨.ok ""⟩).effects := by
  decide

/-- C8, amended: classification status lines for present paths go to
standard output, while the not-found and permission-denied reports,
canonicalizer diagnostics, prompts, and the exit-code note go to standard
error; standard input is read only in a deletion flow, immediately after
the prompt, and never when the deletion flag is off. -/
theorem c8_stream_discipline_amended (p s t st input : String) (len : Nat)
    (i : StdinModel) (fs : Fs) :
    ((start ⟨false, p⟩ ⟨.error .notFound, fs.canonicalizeRes, fs.readDirRes,
        fs.readLinkRes, fs.removeDirOk, fs.removeFileOk⟩ i).effects
        = [.stderr (msgNotFound p), .stderr (msgExiting 11)])
    ∧ ((start ⟨false, p⟩ ⟨.error .permissionDenied, fs.canonicalizeRes, fs.readDirRes,
        fs.readLinkRes, fs.removeDirOk, fs.removeFileOk⟩ i).effects
        = [.stderr (msgPermissionDenied p), .stderr (msgExiting 12)])
    ∧ (start ⟨false, p⟩ (dirFs s []) i).effects
        = [.stderr (msgCanonicalized p s), .stdout (msgEmptyDir s)]
    ∧ (start ⟨false, p⟩ (dirFs s [.entry .file]) i).effects
        = [.stderr (msgCanonicalized p s), .stdout (msgNonEmptyDir s 0 1 0 1),
           .stderr (msgExiting 31)]
    ∧ (start ⟨false, p⟩ (fileFs s 0) i).effects
        = [.stderr (msgCanonicalized p s), .stdout (msgEmptyFile s)]
    ∧ (start ⟨false, p⟩ (fileFs s (len + 1)) i).effects
        = [.stderr (msgCanonicalized p s), .stdout (msgNonEmptyFile s (len + 1)),
           .stderr (msgExiting 21)]
    ∧ (start ⟨false, p⟩ (symlinkFs t (.resolved ⟨st, true⟩)) i).effects
        = [.stderr (msgCanonicalized p st), .stdout (msgLiveSymlink p t st),
           .stderr (msgExiting 41)]
    ∧ (start ⟨false, p⟩ (symlinkFs t .notFound) i).effects
        = [.stderr (msgCanonicalizeNotFound p), .stdout (msgDanglingSymlink p t)]
    ∧ (start ⟨true, p⟩ (dirFs s []) ⟨.ok input⟩).effects
        = [.stderr (msgCanonicalized p s), .stdout (msgEmptyDir s),
           .stderr (msgPromptDir s), .stdinRead] ++
          (if input = "y\n" then [Effect.removeDir, .stdout (msgDeletedDir s)]
           else [.stdout msgNotDeletingDir, .stderr (msgExiting 32)])
    ∧ Effect.stdinRead ∉ (start ⟨false, p⟩ fs i).effects := by
  refine ⟨?_, ?_, ?_, ?_, ?_, ?_, ?_, ?_, ?_, ?_⟩
  · simp [start, startOnPath, startCore, classifyAct, Path.new, OsPath.toStr]
  · simp [start, startOnPath, startCore, classifyAct, Path.new, OsPath.toStr]
  · simp [start, startOnPath, startCore, classifyAct, dirFs, canonicalize,
      Path.new, OsPath.toStr, countLoop, u32Mod]
  · simp [start, startOnPath, startCore, classifyAct, dirFs, canonicalize,
      Path.new, OsPath.toStr, countLoop, u32Mod]
  · simp [start, startOnPath, startCore, classifyAct, fileFs, canonicalize,
      Path.new, OsPath.toStr]
  · simp [start, startOnPath, startCore, classifyAct, fileFs, canonicalize,
      Path.new, OsPath.toStr]
  · simp [start, startOnPath, startCore, classifyAct, symlinkFs, canonicalize,
      Path.new, OsPath.toStr]
  · simp [start, startOnPath, startCore, classifyAct, symlinkFs, canonicalize,
      Path.new, OsPath.toStr]
  · by_cases h : input = "y\n" <;>
      simp [h, start, startOnPath, startCore, classifyAct, dirFs, canonicalize,
        Path.new, OsPath.toStr, countLoop, u32Mod]
  · intro hmem
    have hmem' : Effect.stdinRead ∈ (startCore false p fs i).effects := hmem
    have hp := startCore_false_passive p fs i _ hmem'
    simp [Effect.isPassive] at hp

/-- Witness for C1 at concrete inputs: confirming with "y" then newline
deletes an empty directory and succeeds; any other line declines with
exit code 32. -/
theorem c1_confirmation_gated_deletion_witness :
    ((start ⟨true, "p"⟩ (dirFs "/a" []) ⟨.ok "y\n"⟩).outcome = .success ∧
      Effect.removeDir ∈ (start ⟨true, "p"⟩ (dirFs "/a" []) ⟨.ok "y\n"⟩).effects) ∧
    ((start ⟨true, "p"⟩ (dirFs "/a" []) ⟨.ok "n\n"⟩).outcome = .exitCode 32 ∧
      Effect.removeDir ∉ (start ⟨true, "p"⟩ (dirFs "/a" []) ⟨.ok "n\n"⟩).effects) := by
  constructor
  · have h := c1_confirmation_gated_deletion "p" "/a" "t" "y\n"
    rw [if_pos rfl] at h
    exact ⟨h.1.1, h.1.2.2.1⟩
  · have h := c1_confirmation_gated_deletion "p" "/a" "t" "n\n"
    rw [if_neg (by decide)] at h
    exact ⟨h.1.1, h.1.2.1⟩

/-- Witness for C2 at a concrete input: a live symlink gives exit code 41
even with the deletion flag set, and stdin is never read. -/
theorem c2_live_symlink_always_41_witness :
    (start ⟨true, "p"⟩ (symlinkFs "t" (.resolved ⟨"/r", true⟩)) ⟨.ok "y\n"⟩).outcome
      = .exitCode 41 ∧
    Effect.stdinRead ∉
      (start ⟨true, "p"⟩ (symlinkFs "t" (.resolved ⟨"/r", true⟩)) ⟨.ok "y\n"⟩).effects :=
  ⟨(c2_live_symlink_always_41 "p" "t" "/r" true ⟨.ok "y\n"⟩).1,
    (c2_live_symlink_always_41 "p" "t" "/r" true ⟨.ok "y\n"⟩).2.2.1⟩

/-- Witness for the amended C8 at concrete inputs: an empty-directory run
without the deletion flag writes its status line to stdout and its
diagnostics to stderr, and never reads stdin. -/
theorem c8_stream_discipline_amended_witness :
    (start ⟨false, "p"⟩ (dirFs "/a" []) ⟨.ok ""⟩).effects
      = [.stderr (msgCanonicalized "p" "/a"), .stdout (msgEmptyDir "/a")] ∧
    Effect.stdinRead ∉ (start ⟨false, "p"⟩ (dirFs "/a" []) ⟨.ok ""⟩).effects :=
  ⟨(c8_stream_discipline_amended "p" "/a" "t" "/r" "" 0 ⟨.ok ""⟩ (dirFs "/a" [])).2.2.1,
    (c8_stream_discipline_amended "p" "/a" "t" "/r" "" 0 ⟨.ok ""⟩
      (dirFs "/a" [])).2.2.2.2.2.2.2.2.2⟩
